import Mathlib

/-!
Verification of `scripts/generate_icons.py`.

The script opens one image, center-crops it to a square, and writes three
resized PNG copies (16, 48, 128 pixels).  We embed the script shallowly:

* `Img` models the in-memory decoded image (dimensions and a pixel map).
* `cropBox` mirrors the four arithmetic lines computing `left`, `top`,
  `right`, `bottom` with Python's true division `/` on integers, hence over `ℚ`.
* `pyRound` is Python's `round` (round half to even), which PIL applies to
  each coordinate of a fractional crop box.
* `Image.crop` / `Image.resize` model the PIL calls used by the script;
  the pixel values of PIL's resampling kernels are external to the
  repository, so `resize` fixes the target dimensions exactly (PIL's
  contract) and fills pixels by plain sampling, which no theorem inspects.
* `run` executes the whole `try:` body against an environment `Env` that
  says whether `Image.open` succeeds and which (if any) `save` call raises;
  the single `except` clause prints `Error: <e>` and stops.
-/

/-- An in-memory decoded image: pixel dimensions and a pixel map. -/
@[ext]
structure Img where
  width : Nat
  height : Nat
  px : Nat → Nat → Nat

namespace IconGen

/-- The resampling filters of `PIL.Image.Resampling` used or available
to `Image.resize`. -/
inductive Filter where
  | nearest
  | bilinear
  | bicubic
  | lanczos
deriving DecidableEq, Repr

/-- `input_path = "public/Whisk_5e6bbe242133923a5d44834e6368ed79dr.jpeg"`. -/
def input_path : String := "public/Whisk_5e6bbe242133923a5d44834e6368ed79dr.jpeg"

/-- `output_dir = "public"`. -/
def output_dir : String := "public"

/-- `sizes = [16, 48, 128]`. -/
def sizes : List Nat := [16, 48, 128]

/-- `new_size = min(width, height)`. -/
def new_size (width height : Nat) : Nat := min width height

/-- The crop box `(left, top, right, bottom)` computed by the script with
Python's true division, so over `ℚ`:
`left = (width - new_size) / 2`, `top = (height - new_size) / 2`,
`right = (width + new_size) / 2`, `bottom = (height + new_size) / 2`. -/
def cropBox (width height : Nat) : ℚ × ℚ × ℚ × ℚ :=
  let n : ℚ := new_size width height
  let left := ((width : ℚ) - n) / 2
  let top := ((height : ℚ) - n) / 2
  let right := ((width : ℚ) + n) / 2
  let bottom := ((height : ℚ) + n) / 2
  (left, top, right, bottom)

/-- Python's built-in `round` on an exact rational: round to the nearest
integer, ties to the even integer.  PIL applies it to each coordinate of a
fractional crop box before cropping. -/
def pyRound (q : ℚ) : ℤ :=
  if q - ⌊q⌋ < 1 / 2 then ⌊q⌋
  else if 1 / 2 < q - ⌊q⌋ then ⌊q⌋ + 1
  else if ⌊q⌋ % 2 = 0 then ⌊q⌋ else ⌊q⌋ + 1

/-- `PIL.Image.crop(box)`: round each coordinate with Python `round`, then
return the region `[x0, x1) × [y0, y1)`; the new pixel `(x, y)` is the old
pixel `(x0 + x, y0 + y)`.  (The script only produces in-bounds boxes, see
the well-formedness theorems below.) -/
def Image.crop (img : Img) (box : ℚ × ℚ × ℚ × ℚ) : Img :=
  let x0 := pyRound box.1
  let y0 := pyRound box.2.1
  let x1 := pyRound box.2.2.1
  let y1 := pyRound box.2.2.2
  { width := (x1 - x0).toNat
    height := (y1 - y0).toNat
    px := fun x y => img.px (x0.toNat + x) (y0.toNat + y) }

/-- `img_cropped = img.crop((left, top, right, bottom))`. -/
def img_cropped (img : Img) : Img :=
  Image.crop img (cropBox img.width img.height)

/-- `PIL.Image.resize((w, h), filter)`: the result has exactly the requested
dimensions (PIL's contract).  The pixel values of PIL's external resampling
kernels are modelled as plain sampling; no theorem below inspects them. -/
def Image.resize (img : Img) (wh : Nat × Nat) (f : Filter) : Img :=
  { width := wh.1
    height := wh.2
    px := fun x y =>
      match f with
      | _ => img.px (x * img.width / wh.1) (y * img.height / wh.2) }

/-- `output_path = os.path.join(output_dir, f"icon{size}.png")`. -/
def output_path (size : Nat) : String :=
  output_dir ++ "/" ++ ("icon" ++ toString size ++ ".png")

/-- The environment a run executes against: whether `Image.open(input_path)`
yields a decoded image or raises with a message, and whether the `i`-th
`save` call (0-based, in loop order) raises with a message. -/
structure Env where
  openResult : Except String Img
  saveFail : Nat → Option String

/-- The observable effects of one run: the files written to disk (path and
image, in order), the console lines printed (in order), and the `resize`
calls made (source image, target dimensions, filter, in order). -/
structure RunResult where
  written : List (String × Img)
  console : List String
  resizeCalls : List (Img × (Nat × Nat) × Filter)

/-- The `for size in sizes:` loop, starting at the save-call index `i`.
Each iteration resizes the (one) cropped image, then attempts the save:
a raising save aborts the loop and control reaches the `except` clause,
which prints `Error: <e>`; a successful save prints `Generated: <path>`. -/
def runSizes (saveFail : Nat → Option String) (cropped : Img) :
    List Nat → Nat → RunResult
  | [], _ => ⟨[], [], []⟩
  | size :: rest, i =>
    let img_resized := Image.resize cropped (size, size) Filter.lanczos
    let path := output_path size
    match saveFail i with
    | some msg =>
        ⟨[], ["Error: " ++ msg], [(cropped, (size, size), Filter.lanczos)]⟩
    | none =>
        let r := runSizes saveFail cropped rest (i + 1)
        ⟨(path, img_resized) :: r.written,
         ("Generated: " ++ path) :: r.console,
         (cropped, (size, size), Filter.lanczos) :: r.resizeCalls⟩

/-- The whole `try: ... except Exception as e: print(f"Error: {e}")` body. -/
def run (env : Env) : RunResult :=
  match env.openResult with
  | Except.error msg => ⟨[], ["Error: " ++ msg], []⟩
  | Except.ok img => runSizes env.saveFail (img_cropped img) sizes 0

end IconGen

namespace IconGen

/-! ### Helper lemmas -/

theorem pyRound_natCast (n : ℕ) : pyRound (n : ℚ) = n := by
  norm_num [pyRound, Int.floor_natCast]

theorem natCast_div_two_eq_int_iff (m : ℕ) :
    (∃ z : ℤ, (m : ℚ) / 2 = z) ↔ m % 2 = 0 := by
  constructor
  · rintro ⟨z, hz⟩
    have h2 : (m : ℚ) = 2 * (z : ℚ) := by
      field_simp at hz
      linarith
    have h3 : (m : ℤ) = 2 * z := by exact_mod_cast h2
    omega
  · intro h
    obtain ⟨k, hk⟩ := Nat.even_iff.mpr h
    refine ⟨k, ?_⟩
    subst hk
    push_cast
    ring

end IconGen

namespace IconGen

/-! ### Claim theorems -/

/-- C1: for every input of width `W` and height `H`, the script computes
`new_size = min(W, H)` and passes exactly the crop box
`((W-new_size)/2, (H-new_size)/2, (W+new_size)/2, (H+new_size)/2)` to the
crop operation; for a 400×300 input the box is `(50, 0, 350, 300)`. -/
theorem crop_box_formula :
    (∀ width height : Nat, new_size width height = min width height) ∧
    (∀ width height : Nat,
      cropBox width height =
        (((width : ℚ) - min width height) / 2,
         ((height : ℚ) - min width height) / 2,
         ((width : ℚ) + min width height) / 2,
         ((height : ℚ) + min width height) / 2)) ∧
    (∀ img : Img, img_cropped img = Image.crop img (cropBox img.width img.height)) ∧
    cropBox 400 300 = (50, 0, 350, 300) := by
  refine ⟨fun _ _ => rfl, fun w h => rfl, fun _ => rfl, ?_⟩
  norm_num [cropBox, new_size]

/-- C2: the crop box is the largest centered square fitting the image:
both edges have length `min(W, H)` exactly, and the margin on the left of
the box equals the margin on its right (and likewise top/bottom), exactly
over the fractional coordinates the script computes. -/
theorem crop_box_centered_square (width height : Nat) :
    (cropBox width height).2.2.1 - (cropBox width height).1 =
      ((min width height : ℕ) : ℚ) ∧
    (cropBox width height).2.2.2 - (cropBox width height).2.1 =
      ((min width height : ℕ) : ℚ) ∧
    (cropBox width height).1 - 0 =
      (width : ℚ) - (cropBox width height).2.2.1 ∧
    (cropBox width height).2.1 - 0 =
      (height : ℚ) - (cropBox width height).2.2.2 := by
  simp only [cropBox, new_size]
  refine ⟨by ring, by ring, by ring, by ring⟩

end IconGen

namespace IconGen

/-- C8 (implicit): for any input with `width ≥ 1` and `height ≥ 1` the
computed crop box is well-formed and in bounds
(`0 ≤ left ≤ right ≤ width`, `0 ≤ top ≤ bottom ≤ height`), both edges
equal `min(width, height)` exactly even at half-integer coordinates, and
`left` (resp. `top`) is fractional exactly when the discarded excess
`width - min` (resp. `height - min`) is odd. -/
theorem crop_box_well_formed (width height : Nat)
    (hw : 1 ≤ width) (hh : 1 ≤ height) :
    0 ≤ (cropBox width height).1 ∧
    (cropBox width height).1 ≤ (cropBox width height).2.2.1 ∧
    (cropBox width height).2.2.1 ≤ (width : ℚ) ∧
    0 ≤ (cropBox width height).2.1 ∧
    (cropBox width height).2.1 ≤ (cropBox width height).2.2.2 ∧
    (cropBox width height).2.2.2 ≤ (height : ℚ) ∧
    (cropBox width height).2.2.1 - (cropBox width height).1 =
      ((min width height : ℕ) : ℚ) ∧
    (cropBox width height).2.2.2 - (cropBox width height).2.1 =
      ((min width height : ℕ) : ℚ) ∧
    ((∃ z : ℤ, (cropBox width height).1 = z) ↔
      (width - min width height) % 2 = 0) ∧
    ((∃ z : ℤ, (cropBox width height).2.1 = z) ↔
      (height - min width height) % 2 = 0) := by
  have h1 : ((min width height : ℕ) : ℚ) ≤ (width : ℚ) :=
    Nat.cast_le.mpr (Nat.min_le_left _ _)
  have h2 : ((min width height : ℕ) : ℚ) ≤ (height : ℚ) :=
    Nat.cast_le.mpr (Nat.min_le_right _ _)
  have h0 : (0 : ℚ) ≤ ((min width height : ℕ) : ℚ) := Nat.cast_nonneg _
  simp only [cropBox, new_size]
  refine ⟨?_, ?_, ?_, ?_, ?_, ?_, by ring, by ring, ?_, ?_⟩
  · apply div_nonneg _ (by norm_num)
    linarith
  · rw [div_le_div_iff_of_pos_right (by norm_num : (0 : ℚ) < 2)]
    linarith
  · rw [div_le_iff (by norm_num : (0 : ℚ) < 2)]
    linarith
  · apply div_nonneg _ (by norm_num)
    linarith
  · rw [div_le_div_iff_of_pos_right (by norm_num : (0 : ℚ) < 2)]
    linarith
  · rw [div_le_iff (by norm_num : (0 : ℚ) < 2)]
    linarith
  · rw [← Nat.cast_sub (Nat.min_le_left width height)]
    exact natCast_div_two_eq_int_iff _
  · rw [← Nat.cast_sub (Nat.min_le_right width height)]
    exact natCast_div_two_eq_int_iff _

/-- C8 witness at a 3×2 input: the box is `(1/2, 0, 5/2, 2)`. -/
theorem crop_box_well_formed_witness :
    0 ≤ (cropBox 3 2).1 ∧
    (cropBox 3 2).1 ≤ (cropBox 3 2).2.2.1 ∧
    (cropBox 3 2).2.2.1 ≤ ((3 : ℕ) : ℚ) ∧
    0 ≤ (cropBox 3 2).2.1 ∧
    (cropBox 3 2).2.1 ≤ (cropBox 3 2).2.2.2 ∧
    (cropBox 3 2).2.2.2 ≤ ((2 : ℕ) : ℚ) ∧
    (cropBox 3 2).2.2.1 - (cropBox 3 2).1 = ((min 3 2 : ℕ) : ℚ) ∧
    (cropBox 3 2).2.2.2 - (cropBox 3 2).2.1 = ((min 3 2 : ℕ) : ℚ) ∧
    ((∃ z : ℤ, (cropBox 3 2).1 = z) ↔ (3 - min 3 2) % 2 = 0) ∧
    ((∃ z : ℤ, (cropBox 3 2).2.1 = z) ↔ (2 - min 3 2) % 2 = 0) :=
  crop_box_well_formed 3 2 (by norm_num) (by norm_num)

end IconGen

namespace IconGen

theorem pyRound_zero : pyRound (0 : ℚ) = 0 := by
  simpa using pyRound_natCast 0

/-- C6: for a square `S×S` input the crop step is a no-op: the crop box is
`(0, 0, S, S)` and cropping returns an image equal to the original. -/
theorem square_crop_noop (img : Img) (S : Nat)
    (hw : img.width = S) (hh : img.height = S) :
    cropBox S S = (0, 0, (S : ℚ), (S : ℚ)) ∧ img_cropped img = img := by
  have hbox : cropBox S S = (0, 0, (S : ℚ), (S : ℚ)) := by
    simp only [cropBox, new_size, min_self, Prod.mk.injEq]
    refine ⟨by ring, by ring, by ring, by ring⟩
  refine ⟨hbox, ?_⟩
  rw [img_cropped, hw, hh, hbox]
  apply Img.ext
  · simp [Image.crop, pyRound_zero, pyRound_natCast, hw]
  · simp [Image.crop, pyRound_zero, pyRound_natCast, hh]
  · funext x y
    simp [Image.crop, pyRound_zero, pyRound_natCast]

/-- C6 witness at a concrete 2×2 image. -/
theorem square_crop_noop_witness :
    cropBox 2 2 = (0, 0, ((2 : ℕ) : ℚ), ((2 : ℕ) : ℚ)) ∧
    img_cropped ⟨2, 2, fun _ _ => 0⟩ = ⟨2, 2, fun _ _ => 0⟩ :=
  square_crop_noop ⟨2, 2, fun _ _ => 0⟩ 2 rfl rfl

end IconGen

namespace IconGen

/-- C3: on a successful run, for each `N` in `[16, 48, 128]` a file
`public/iconN.png` is written whose image is exactly `N×N`, and one
`Generated: <path>` console line is printed per file. -/
theorem success_outputs (env : Env) (img : Img)
    (hopen : env.openResult = Except.ok img)
    (hsave : ∀ i, env.saveFail i = none) :
    (run env).written.map Prod.fst =
      ["public/icon16.png", "public/icon48.png", "public/icon128.png"] ∧
    (run env).written.map (fun pr => (pr.2.width, pr.2.height)) =
      [(16, 16), (48, 48), (128, 128)] ∧
    (run env).console =
      ["Generated: public/icon16.png", "Generated: public/icon48.png",
       "Generated: public/icon128.png"] := by
  simp only [run, hopen]
  simp only [sizes, runSizes, hsave]
  exact ⟨rfl, rfl, rfl⟩

/-- C3 witness: a concrete successful run on a 400×300 image. -/
theorem success_outputs_witness :
    (run ⟨Except.ok ⟨400, 300, fun _ _ => 0⟩, fun _ => none⟩).written.map Prod.fst =
      ["public/icon16.png", "public/icon48.png", "public/icon128.png"] ∧
    (run ⟨Except.ok ⟨400, 300, fun _ _ => 0⟩, fun _ => none⟩).written.map
        (fun pr => (pr.2.width, pr.2.height)) =
      [(16, 16), (48, 48), (128, 128)] ∧
    (run ⟨Except.ok ⟨400, 300, fun _ _ => 0⟩, fun _ => none⟩).console =
      ["Generated: public/icon16.png", "Generated: public/icon48.png",
       "Generated: public/icon128.png"] :=
  success_outputs _ ⟨400, 300, fun _ _ => 0⟩ rfl (fun _ => rfl)

/-- C5: if opening the input fails, the run writes no output files (so any
previously existing files are untouched) and prints one error line. -/
theorem missing_input_no_writes (env : Env) (msg : String)
    (hopen : env.openResult = Except.error msg) :
    (run env).written = [] ∧ (run env).console = ["Error: " ++ msg] := by
  simp [run, hopen]

/-- C5 witness: a concrete run whose `Image.open` raises. -/
theorem missing_input_no_writes_witness :
    (run ⟨Except.error "No such file or directory", fun _ => none⟩).written = [] ∧
    (run ⟨Except.error "No such file or directory", fun _ => none⟩).console =
      ["Error: " ++ "No such file or directory"] :=
  missing_input_no_writes _ "No such file or directory" rfl

end IconGen

namespace IconGen

/-- C4: every failure (at open/decode or at any save) reaches the single
top-level handler: exactly one `Error: <message>` line is printed after the
`Generated:` lines of the files already written, nothing is re-raised or
retried (no size is processed twice), and the files written before the
failure point are kept, never rolled back. -/
theorem error_handling (env : Env) :
    (∀ msg, env.openResult = Except.error msg →
      run env = ⟨[], ["Error: " ++ msg], []⟩) ∧
    (∀ img j msg, env.openResult = Except.ok img → j < sizes.length →
      env.saveFail j = some msg → (∀ k, k < j → env.saveFail k = none) →
      (run env).written.map Prod.fst = (sizes.take j).map output_path ∧
      (run env).console =
        ((sizes.take j).map fun s => "Generated: " ++ output_path s) ++
          ["Error: " ++ msg]) := by
  constructor
  · intro msg h
    simp [run, h]
  · intro img j msg hopen hj hfail hprev
    simp only [sizes, List.length_cons, List.length_nil] at hj
    interval_cases j
    · simp [run, hopen, sizes, runSizes, hfail]
    · have h0 : env.saveFail 0 = none := hprev 0 (by omega)
      simp [run, hopen, sizes, runSizes, h0, hfail]
    · have h0 : env.saveFail 0 = none := hprev 0 (by omega)
      have h1 : env.saveFail 1 = none := hprev 1 (by omega)
      simp [run, hopen, sizes, runSizes, h0, h1, hfail]

/-- C4 witness: a failing open, and a save failure at the second file after
one successful write. -/
theorem error_handling_witness :
    run ⟨Except.error "boom", fun _ => none⟩ =
      ⟨[], ["Error: " ++ "boom"], []⟩ ∧
    ((run ⟨Except.ok ⟨400, 300, fun _ _ => 0⟩,
        fun i => if i = 1 then some "disk full" else none⟩).written.map Prod.fst =
      (sizes.take 1).map output_path ∧
     (run ⟨Except.ok ⟨400, 300, fun _ _ => 0⟩,
        fun i => if i = 1 then some "disk full" else none⟩).console =
      ((sizes.take 1).map fun s => "Generated: " ++ output_path s) ++
        ["Error: " ++ "disk full"]) :=
  ⟨(error_handling _).1 "boom" rfl,
   (error_handling _).2 ⟨400, 300, fun _ _ => 0⟩ 1 "disk full" rfl (by decide) rfl
     (by intro k hk; interval_cases k; rfl)⟩

end IconGen

namespace IconGen

/-- C7: the procedure is deterministic in its input: two (successful) runs
that decode the same image produce identical observable effects — the same
crop geometry, the same files with the same pixel dimensions, the same
console lines. -/
theorem run_deterministic (env1 env2 : Env) (img : Img)
    (h1 : env1.openResult = Except.ok img) (h2 : env2.openResult = Except.ok img)
    (s1 : ∀ i, env1.saveFail i = none) (s2 : ∀ i, env2.saveFail i = none) :
    run env1 = run env2 := by
  simp only [run, h1, h2, sizes, runSizes, s1, s2]

/-- C7 witness: two successful environments that differ syntactically. -/
theorem run_deterministic_witness :
    run ⟨Except.ok ⟨400, 300, fun _ _ => 0⟩, fun _ => none⟩ =
      run ⟨Except.ok ⟨400, 300, fun _ _ => 0⟩,
        fun i => if i < 1000 then none else none⟩ :=
  run_deterministic _ _ ⟨400, 300, fun _ _ => 0⟩ rfl rfl (fun _ => rfl)
    (by intro i; by_cases h : i < 1000 <;> simp [h])

/-- C9 (implicit): the target sizes are processed in the fixed, strictly
increasing order 16, 48, 128 — files and `Generated:` lines appear in that
order — and every resize reads the one cropped image, never a previously
resized copy. -/
theorem sizes_order_independent (env : Env) (img : Img)
    (hopen : env.openResult = Except.ok img) (hsave : ∀ i, env.saveFail i = none) :
    sizes = [16, 48, 128] ∧
    List.Chain' (· < ·) sizes ∧
    (run env).written =
      sizes.map (fun s =>
        (output_path s, Image.resize (img_cropped img) (s, s) Filter.lanczos)) ∧
    (run env).console = sizes.map (fun s => "Generated: " ++ output_path s) ∧
    (run env).resizeCalls =
      sizes.map (fun s => (img_cropped img, (s, s), Filter.lanczos)) := by
  refine ⟨rfl, by norm_num [sizes, List.chain'_cons], ?_, ?_, ?_⟩ <;>
    simp [run, hopen, sizes, runSizes, hsave]

/-- C9 witness: a concrete successful run on a 400×300 image. -/
theorem sizes_order_independent_witness :
    sizes = [16, 48, 128] ∧
    List.Chain' (· < ·) sizes ∧
    (run ⟨Except.ok ⟨400, 300, fun _ _ => 0⟩, fun _ => none⟩).written =
      sizes.map (fun s =>
        (output_path s,
         Image.resize (img_cropped ⟨400, 300, fun _ _ => 0⟩) (s, s)
           Filter.lanczos)) ∧
    (run ⟨Except.ok ⟨400, 300, fun _ _ => 0⟩, fun _ => none⟩).console =
      sizes.map (fun s => "Generated: " ++ output_path s) ∧
    (run ⟨Except.ok ⟨400, 300, fun _ _ => 0⟩, fun _ => none⟩).resizeCalls =
      sizes.map (fun s =>
        (img_cropped ⟨400, 300, fun _ _ => 0⟩, (s, s), Filter.lanczos)) :=
  sizes_order_independent _ ⟨400, 300, fun _ _ => 0⟩ rfl (fun _ => rfl)

theorem runSizes_resizeCalls_lanczos (sf : Nat → Option String) (cropped : Img) :
    ∀ (l : List Nat) (i : Nat) c, c ∈ (runSizes sf cropped l i).resizeCalls →
      c.2.2 = Filter.lanczos := by
  intro l
  induction l with
  | nil =>
    intro i c hc
    simp [runSizes] at hc
  | cons s rest ih =>
    intro i c hc
    simp only [runSizes] at hc
    cases hsf : sf i with
    | some msg =>
      simp [hsf] at hc
      simp [hc]
    | none =>
      simp only [hsf] at hc
      rcases List.mem_cons.mp hc with h | h
      · simp [h]
      · exact ih (i + 1) c h

/-- C10: every `resize` call the script makes — in any run, for each of the
three target sizes — uses the `LANCZOS` resampling filter. -/
theorem resize_uses_lanczos (env : Env) :
    ∀ c ∈ (run env).resizeCalls, c.2.2 = Filter.lanczos := by
  intro c hc
  simp only [run] at hc
  cases h : env.openResult with
  | error msg => simp [h] at hc
  | ok img =>
    simp only [h] at hc
    exact runSizes_resizeCalls_lanczos _ _ sizes 0 c hc

/-- C10 witness: the first resize call of a concrete successful run. -/
theorem resize_uses_lanczos_witness :
    (img_cropped ⟨400, 300, fun _ _ => 0⟩, ((16, 16) : Nat × Nat),
      Filter.lanczos).2.2 = Filter.lanczos :=
  resize_uses_lanczos ⟨Except.ok ⟨400, 300, fun _ _ => 0⟩, fun _ => none⟩ _
    (List.Mem.head _)

end IconGen
